import Mathlib

/-!
Verification of the unified conversation-history storage subsystem of
TARVIS-LLM (`src/core/storage_manager.py`) against its specification.

The Python code is shallowly embedded: Python/JSON values are modelled by
`PyVal`, the local history file by `FileState`, the Google-Drive backend by
`Drive`, and every fallible external operation (file I/O, network, OAuth
library calls) by an explicit environment record whose boolean/optional
fields state whether that operation succeeds.  Every function below is a
direct transcription of the corresponding Python function; `try/except`
blocks become total functions returning the documented fallback value, and
an exception that the Python code does NOT catch becomes an `Except.error`.
-/

/-- Python/JSON values, as produced by `json.loads`.  Floats are not needed
by the storage subsystem and are omitted. -/
inductive PyVal where
  | str (s : String)
  | int (n : Int)
  | bool (b : Bool)
  | none
  | list (xs : List PyVal)
  | dict (kvs : List (String × PyVal))
deriving Repr

/-- A Python `dict` with string keys, as an insertion-ordered association
list (first occurrence of a key is authoritative; `dictSet` keeps keys
unique). -/
abbrev Dict := List (String × PyVal)

/-- `d[k]` lookup: first binding of `k` (keys are unique, see `dictSet`). -/
def dictGet (d : Dict) (k : String) : Option PyVal :=
  (d.find? (fun kv => kv.1 = k)).map (·.2)

/-- `d[k] = v`: overwrite the existing binding in place (CPython keeps the
key's insertion position), else append at the end. -/
def dictSet : Dict → String → PyVal → Dict
  | [], k, v => [(k, v)]
  | kv :: rest, k, v =>
      if kv.1 = k then (k, v) :: rest else kv :: dictSet rest k v

/-- The entry `save_message` builds:
`{"timestamp": ts, "sender": sender, "message": message}`. -/
def mkEntry (ts sender message : String) : PyVal :=
  .dict [("timestamp", .str ts), ("sender", .str sender), ("message", .str message)]

/-- Shape of `datetime.isoformat()` output:
`YYYY-MM-DDTHH:MM:SS` optionally followed by `.` and a nonempty run of
digits (microseconds). -/
def isIso8601 (s : String) : Bool :=
  match s.data with
  | y1 :: y2 :: y3 :: y4 :: '-' :: m1 :: m2 :: '-' :: d1 :: d2 :: 'T'
      :: h1 :: h2 :: ':' :: n1 :: n2 :: ':' :: s1 :: s2 :: rest =>
      [y1, y2, y3, y4, m1, m2, d1, d2, h1, h2, n1, n2, s1, s2].all Char.isDigit &&
      (match rest with
       | [] => true
       | '.' :: ds => !ds.isEmpty && ds.all Char.isDigit
       | _ => false)
  | _ => false

/-! ## Local Conversation Store (`LocalStorageManager`) -/

/-- The observable states of the local backing file.  `json v` means the
file holds the UTF-8 serialization of the JSON value `v` (Python's
`json.dump`/`json.loads` round-trip at the value level). -/
inductive FileState where
  | absent            -- `self.filepath.exists()` is false
  | ioError           -- opening/reading raises `IOError`
  | blank             -- content empty or whitespace-only
  | invalid           -- content is not valid JSON (`json.loads` raises)
  | json (v : PyVal)  -- content is valid JSON for the value `v`
deriving Repr

/-- `LocalStorageManager._load_raw_history`: lenient read.  Every failure
branch (missing file, `IOError`, blank content, `JSONDecodeError`,
non-list top level) is caught in the source and returns `[]`. -/
def load_raw_history : FileState → List PyVal
  | .absent => []
  | .ioError => []
  | .blank => []
  | .invalid => []
  | .json v =>
      match v with
      | .list xs => xs
      | _ => []

/-- `LocalStorageManager.load_history`: delegates to `_load_raw_history`. -/
def load_history (f : FileState) : List PyVal :=
  load_raw_history f

/-- `LocalStorageManager.save_message`: read current history leniently,
append `{"timestamp": ts, "sender": sender, "message": message}`, write the
full list back.  `ts` stands for the `datetime.now().isoformat()` value
generated at call time; the write is modelled as succeeding (a failing
write is caught and logged in the source, leaving no new entry — the
spec's acknowledged gap, outside the claims below). -/
def save_message (ts sender message : String) (f : FileState) : FileState :=
  .json (.list (load_raw_history f ++ [mkEntry ts sender message]))

/-- Run a sequence of `save_message` calls; each element of `calls` is
`(timestamp, sender, message)` for one call. -/
def runSaves (calls : List (String × String × String)) (f : FileState) : FileState :=
  calls.foldl (fun acc c => save_message c.1 c.2.1 c.2.2 acc) f



/-! ## Settings loader (`load_settings`) -/

/-- Python truthiness for the values appearing in settings. -/
def truthy : PyVal → Bool
  | .str s => !(s = "")
  | .int n => !(n = 0)
  | .bool b => b
  | .none => false
  | .list xs => !xs.isEmpty
  | .dict kvs => !kvs.isEmpty

/-- `dict.update(other)` with `other` a dict: fold assignments in order. -/
def updateFromDict (d : Dict) (kvs : List (String × PyVal)) : Dict :=
  kvs.foldl (fun acc kv => dictSet acc kv.1 kv.2) d

/-- One element of a non-dict iterable passed to `dict.update`: it must be
a sequence of length 2 (a two-element JSON list with a string key, or a
two-character string).  Non-string keys lie outside the string-keyed dict
domain modelled here and are not used by any theorem below. -/
def updatePairOf : PyVal → Option (String × PyVal)
  | .list [.str k, v] => some (k, v)
  | .str s =>
      match s.data with
      | [a, b] => some (String.mk [a], .str (String.mk [b]))
      | _ => Option.none
  | _ => Option.none

/-- Python's builtin `dict.update(x)`: a dict merges key by key; a list (or
a string) is consumed as an iterable of key/value pairs, raising
`ValueError`/`TypeError` on a malformed element; any other value is not
iterable and raises `TypeError`.  The Python source
(`default_settings.update(loaded_settings)`) catches neither error. -/
def dictUpdate (d : Dict) : PyVal → Except String Dict
  | .dict kvs => .ok (updateFromDict d kvs)
  | .list xs =>
      xs.foldlM (fun acc x =>
        match updatePairOf x with
        | some (k, v) => Except.ok (dictSet acc k v)
        | Option.none => Except.error "ValueError: dictionary update sequence element is not a pair") d
  | .str s =>
      if s = "" then .ok d
      else .error "ValueError: dictionary update sequence element is not a pair"
  | _ => .error "TypeError: object is not iterable"

/-- `as` begins with `bs` (character lists). -/
def listStartsWith : List Char → List Char → Bool
  | _, [] => true
  | [], _ :: _ => false
  | a :: as, b :: bs => a = b && listStartsWith as bs

/-- Python's `str.endswith`, computable by structural recursion. -/
def strEndsWith (s t : String) : Bool :=
  listStartsWith s.data.reverse t.data.reverse

/-- The built-in `default_settings` literal of `load_settings`. -/
def defaultSettings : Dict :=
  [("storage_mode", .str "local"),
   ("local_storage_path", .none),
   ("google_drive_credentials_file", .str "credentials.json"),
   ("google_drive_token_file", .str "token.json"),
   ("google_drive_folder_name", .str "Jarvis-Core History"),
   ("history_filename", .str "jarvis_chat_history.json"),
   ("llm_model_path", .none),
   ("system_prompt_path", .none)]

/-- The `.pickle` → `token.json` normalization after the merge:
`settings.get("google_drive_token_file", "").endswith(".pickle")`.
Calling `.endswith` on a non-string value raises `AttributeError`, which
the source does not catch. -/
def tokenFixup (d : Dict) : Except String Dict :=
  match (dictGet d "google_drive_token_file").getD (.str "") with
  | .str s =>
      .ok (if strEndsWith s ".pickle"
           then dictSet d "google_drive_token_file" (.str "token.json")
           else d)
  | _ => .error "AttributeError: endswith called on a non-string value"

/-- Observable states of `config/settings.json` as seen by `load_settings`. -/
inductive SettingsFile where
  | absent            -- `settings_path.exists()` is false
  | ioError           -- opening/reading raises `IOError`
  | invalidJson       -- `json.load` raises `JSONDecodeError`
  | parsed (v : PyVal)  -- `json.load` returns the value `v`

/-- `load_settings`: defaults when the file is missing; defaults (with the
token-file key re-asserted to `"token.json"`) when reading or JSON parsing
fails — only `JSONDecodeError` and `IOError` are caught; a `TypeError`
from `dict.update` or an `AttributeError` from the `.endswith` check
propagates to the caller (`Except.error`). -/
def load_settings : SettingsFile → Except String Dict
  | .absent => .ok defaultSettings
  | .ioError => .ok (dictSet defaultSettings "google_drive_token_file" (.str "token.json"))
  | .invalidJson => .ok (dictSet defaultSettings "google_drive_token_file" (.str "token.json"))
  | .parsed v => do
      let merged ← dictUpdate defaultSettings v
      tokenFixup merged

/-- Last binding of `k` in an update list (later assignments win). -/
def lastGet (kvs : List (String × PyVal)) (k : String) : Option PyVal :=
  (kvs.reverse.find? (fun kv => kv.1 = k)).map (·.2)

/-- The loaded `google_drive_token_file` value, when present, is a string
(so the `.endswith` normalization cannot raise). -/
def tokenFieldOk (kvs : List (String × PyVal)) : Bool :=
  match lastGet kvs "google_drive_token_file" with
  | some (.str _) => true
  | some _ => false
  | Option.none => true

/-- Total version of the `.pickle` normalization, agreeing with
`tokenFixup` whenever the token-file value is a string. -/
def pureFixup (d : Dict) : Dict :=
  match (dictGet d "google_drive_token_file").getD (.str "") with
  | .str s =>
      if strEndsWith s ".pickle"
      then dictSet d "google_drive_token_file" (.str "token.json")
      else d
  | _ => d


/-! ## Cloud Conversation Store (`GoogleDriveStorageManager`) -/

/-- The observable fields of a `google.oauth2.credentials.Credentials`
object used by `authenticate`: `valid`, `expired`, and whether a refresh
token is present. -/
structure Cred where
  valid : Bool
  expired : Bool
  refresh_token : Bool
deriving Repr, DecidableEq

/-- States of the persisted token file (`token.json`). -/
inductive TokenFileState where
  | absent             -- `self.token_path.exists()` is false
  | corrupt (c : Cred) -- `Credentials.from_authorized_user_file` raises
  | stored (c : Cred)  -- loads successfully as the credential `c`
deriving Repr, DecidableEq

/-- A non-trashed Drive folder (id, name). -/
structure DriveFolder where
  fid : String
  fname : String
deriving Repr

/-- A non-trashed Drive file (id, name, parent folder id, content). -/
structure DriveFile where
  fid : String
  fname : String
  parent : String
  content : FileState
deriving Repr

/-- The remote Drive: folders, files, and a counter supplying fresh ids. -/
structure Drive where
  folders : List DriveFolder
  files : List DriveFile
  nextId : Nat
deriving Repr

/-- Manager configuration plus the external world of one `authenticate`
call: the token file, whether each network/library operation would
succeed, and the remote Drive contents.  Operations whose failure the
source catches and merely logs (directory creation for the token file,
token writes) are modelled by their success flag where observable. -/
structure GDriveEnv where
  tokenFile : TokenFileState
  refreshOk : Bool          -- `creds.refresh(Request())` succeeds
  refreshSaveOk : Bool      -- writing the refreshed token succeeds
  credsFileExists : Bool    -- `self.credentials_path.exists()`
  flowResult : Option Cred  -- `flow.run_local_server`: credential, or raises
  tokenSaveOk : Bool        -- writing the new token succeeds
  buildOk : Bool            -- `build("drive", "v3", ...)` succeeds
  folderListOk : Bool       -- folder `files().list` succeeds
  folderCreateOk : Bool     -- folder `files().create` succeeds
  fileListOk : Bool         -- file `files().list` succeeds
  fileCreateOk : Bool       -- file `files().create` succeeds
  folder_name : String
  filename : String
  drive : Drive
deriving Repr

/-- `GoogleDriveStorageManager._find_or_create_folder`: query by exact
name, return the first match, else create; any API failure → `None`. -/
def find_or_create_folder (env : GDriveEnv) (d : Drive) : Option String × Drive :=
  if !env.folderListOk then (Option.none, d)
  else
    match d.folders.find? (fun f => f.fname = env.folder_name) with
    | some f => (some f.fid, d)
    | Option.none =>
        if !env.folderCreateOk then (Option.none, d)
        else
          let fid := "id" ++ toString d.nextId
          (some fid,
           { d with folders := d.folders ++ [⟨fid, env.folder_name⟩],
                    nextId := d.nextId + 1 })

/-- `GoogleDriveStorageManager._ensure_file_exists`: resolve the folder,
look the history file up inside it, and create it with initial content
`b"[]"` when missing; any failure leaves the file id `None`. -/
def ensure_file_exists (env : GDriveEnv) (d : Drive) : Option String × Drive :=
  match find_or_create_folder env d with
  | (Option.none, d') => (Option.none, d')
  | (some folderId, d') =>
      if !env.fileListOk then (Option.none, d')
      else
        match d'.files.find? (fun f => f.fname = env.filename && f.parent = folderId) with
        | some f => (some f.fid, d')
        | Option.none =>
            if !env.fileCreateOk then (Option.none, d')
            else
              let fid := "id" ++ toString d'.nextId
              (some fid,
               { d' with files := d'.files ++ [⟨fid, env.filename, folderId, .json (.list [])⟩],
                         nextId := d'.nextId + 1 })

/-- Result of one `authenticate` call, starting from a fresh manager
(`service = None`, `file_id = None`). -/
structure AuthResult where
  ok : Bool                -- the returned boolean
  creds : Option Cred      -- the local `creds` variable at the end
  service : Bool           -- `self.service` is set
  file_id : Option String  -- `self.file_id` after `_ensure_file_exists`
  ranFlow : Bool           -- `InstalledAppFlow.run_local_server` was launched
  savedToken : Bool        -- a token file write succeeded
  tokenDeleted : Bool      -- the token file was unlinked
  drive : Drive
deriving Repr

/-- An `authenticate` path that returns `False` before any credential. -/
def authFail (env : GDriveEnv) (ranF deleted : Bool) : AuthResult :=
  { ok := false, creds := Option.none, service := false, file_id := Option.none,
    ranFlow := ranF, savedToken := false, tokenDeleted := deleted, drive := env.drive }

/-- A successful `creds.refresh(Request())` yields a valid credential. -/
def refreshedCred (c : Cred) : Cred :=
  { c with valid := true, expired := false }

/-- Tail of `authenticate`: `if creds: build service; ensure file; True`
(`_ensure_file_exists` failures are internal — the call still returns
`True`), `except: service = None; False`. -/
def buildService (env : GDriveEnv) (c : Cred) (ranF savedTok : Bool) : AuthResult :=
  if env.buildOk then
    let r := ensure_file_exists env env.drive
    { ok := true, creds := some c, service := true, file_id := r.1,
      ranFlow := ranF, savedToken := savedTok, tokenDeleted := false, drive := r.2 }
  else
    { ok := false, creds := some c, service := false, file_id := Option.none,
      ranFlow := ranF, savedToken := savedTok, tokenDeleted := false, drive := env.drive }

/-- The interactive authorization-code flow branch of `authenticate`:
fail fast if the client-secret file is missing, launch the flow, persist
the obtained credential when the token file is missing, re-auth was
forced, or the credential has no refresh token. -/
def run_oauth_flow (env : GDriveEnv) (force_reauth : Bool) : AuthResult :=
  if !env.credsFileExists then authFail env false false
  else
    match env.flowResult with
    | Option.none => authFail env true false
    | some c =>
        let doSave := decide (env.tokenFile = TokenFileState.absent)
                      || force_reauth || !c.refresh_token
        buildService env c true (doSave && env.tokenSaveOk)

/-- `GoogleDriveStorageManager.authenticate`, transcribed branch by
branch.  Note the refresh-failure branch: the source sets `creds = None`
and deletes the token file, but the interactive flow lives in the `else`
of `if creds and creds.expired and creds.refresh_token`, which was
already taken — so control falls through to `if creds:` and the call
returns `False` without launching the flow. -/
def authenticate (env : GDriveEnv) (force_reauth : Bool) : AuthResult :=
  match force_reauth, env.tokenFile with
  | false, .stored c =>
      if c.valid then buildService env c false false
      else if c.expired && c.refresh_token then
        (if env.refreshOk then buildService env (refreshedCred c) false env.refreshSaveOk
         else authFail env false true)
      else run_oauth_flow env false
  | false, .absent => run_oauth_flow env false
  | false, .corrupt _ => run_oauth_flow env false
  | true, _ => run_oauth_flow env true

/-- `GoogleDriveStorageManager._download_history`: requires the service
and file id; downloads and leniently parses the remote content — blank
content, invalid JSON, a non-list top level, or any download/API error
all yield `[]`. -/
def download_history (service : Bool) (file_id : Option String) (downloadOk : Bool) (d : Drive) : List PyVal :=
  match service, file_id with
  | true, some fid =>
      if downloadOk then
        match d.files.find? (fun f => f.fid = fid) with
        | some f =>
            (match f.content with
             | .json (.list xs) => xs
             | _ => [])
        | Option.none => []
      else []
  | _, _ => []

/-- In-memory manager state relevant to `save_message`/`load_history`:
whether `self.service` is set and the cached `self.file_id`. -/
structure GDState where
  service : Bool
  file_id : Option String
deriving Repr

/-- `files().update(fileId=..., media_body=...)`: replace the content. -/
def uploadContent (d : Drive) (fid : String) (v : PyVal) : Drive :=
  { d with files := d.files.map (fun f =>
      if f.fid = fid then { f with content := .json v } else f) }

/-- Result of one cloud `save_message` call. -/
structure GDSaveResult where
  authAttempts : Nat
  saved : Bool
  stateAfter : GDState
  driveAfter : Drive
deriving Repr

/-- The download/append/upload body of the cloud `save_message` (inside
its `try`): an upload failure is caught and logged, recording nothing. -/
def gdrive_do_upload (st : GDState) (d : Drive) (downloadOk uploadOk : Bool) (attempts : Nat) (ts sender message : String) : GDSaveResult :=
  match st.file_id with
  | some fid =>
      let history := download_history st.service st.file_id downloadOk d
      let updated := PyVal.list (history ++ [mkEntry ts sender message])
      if uploadOk then ⟨attempts, true, st, uploadContent d fid updated⟩
      else ⟨attempts, false, st, d⟩
  | Option.none => ⟨attempts, false, st, d⟩

/-- `GoogleDriveStorageManager.save_message`: with the service and file id
present, upload directly; otherwise attempt exactly one
re-authentication, giving up if it fails or the file id is still
missing. -/
def gdrive_save_message (st : GDState) (env : GDriveEnv) (downloadOk uploadOk : Bool) (ts sender message : String) : GDSaveResult :=
  if st.service && st.file_id.isSome then
    gdrive_do_upload st env.drive downloadOk uploadOk 0 ts sender message
  else
    let r := authenticate env false
    if !r.ok then ⟨1, false, ⟨r.service, r.file_id⟩, r.drive⟩
    else
      match r.file_id with
      | Option.none => ⟨1, false, ⟨r.service, Option.none⟩, r.drive⟩
      | some _ => gdrive_do_upload ⟨r.service, r.file_id⟩ r.drive downloadOk uploadOk 1 ts sender message

/-- Result of one cloud `load_history` call. -/
structure GDLoadResult where
  authAttempts : Nat
  history : List PyVal
  stateAfter : GDState
deriving Repr

/-- `GoogleDriveStorageManager.load_history`: same single
re-authentication pass as `save_message`, then a lenient download. -/
def gdrive_load_history (st : GDState) (env : GDriveEnv) (downloadOk : Bool) : GDLoadResult :=
  if st.service && st.file_id.isSome then
    ⟨0, download_history st.service st.file_id downloadOk env.drive, st⟩
  else
    let r := authenticate env false
    if !r.ok then ⟨1, [], ⟨r.service, r.file_id⟩⟩
    else
      match r.file_id with
      | Option.none => ⟨1, [], ⟨r.service, Option.none⟩⟩
      | some _ => ⟨1, download_history r.service r.file_id downloadOk r.drive, ⟨r.service, r.file_id⟩⟩

/-! ## Storage Factory (`initialize_storage_manager`) -/

/-- The resolved history directory of a `LocalStorageManager`. -/
inductive HistoryDir where
  | custom (p : String)  -- the supplied custom path, resolved
  | defaultDir           -- `~/.jarvis-core/history`
deriving Repr, DecidableEq

/-- `cs` contains two consecutive dots (`".." in path_str`). -/
def listHasDotDot : List Char → Bool
  | [] => false
  | '.' :: '.' :: _ => true
  | _ :: rest => listHasDotDot rest

/-- `".." in p` for strings. -/
def containsDotDot (p : String) : Bool :=
  listHasDotDot p.data

/-- The observable configuration of a constructed `LocalStorageManager`. -/
structure LocalStore where
  historyDir : HistoryDir
  localFilename : String
deriving Repr, DecidableEq

/-- `LocalStorageManager.__init__` with a string filename: a truthy
custom path is used verbatim unless it contains `".."` (the raised
`ValueError` is caught and the default directory is used); a falsy or
non-string path (whose `Path(...)`/`resolve` failure is caught) also
falls back to the default directory. -/
def localStorageInit (filename : String) (storage_path : PyVal) : LocalStore :=
  if truthy storage_path then
    match storage_path with
    | .str p => if containsDotDot p then ⟨.defaultDir, filename⟩ else ⟨.custom p, filename⟩
    | _ => ⟨.defaultDir, filename⟩
  else ⟨.defaultDir, filename⟩

/-- The store instance the factory returns. -/
inductive Manager where
  | localM (store : LocalStore)
  | gdriveM (auth : AuthResult)
deriving Repr

/-- Result of `initialize_storage_manager`: the store, plus whether a
`GoogleDriveStorageManager` was constructed and `authenticate` called. -/
structure FactoryResult where
  manager : Manager
  cloudConstructed : Bool
  authAttempted : Bool
deriving Repr

/-- `LocalStorageManager(filename=..., storage_path=...)` including the
filename's type: with a non-string filename, `history_dir / filename`
raises `TypeError`, is caught once, and the retry on the `except` path
(line 148 of the source) raises again, escaping `__init__`. -/
def mkLocalManager (filename clp : PyVal) : Except String LocalStore :=
  match filename with
  | .str f => .ok (localStorageInit f clp)
  | _ => .error "TypeError: unsupported operand type for path join"

/-- `initialize_storage_manager` (fresh initialization): only the exact
mode string `"google_drive"` selects the cloud store; any other value
(including the spec's `"cloud"`) selects the local store directly with no
cloud construction and no authentication.  In cloud mode a failed
`authenticate()` falls back to a local store built with the configured
`local_storage_path` override.  The cloud manager's own configuration
(credential/token paths) is carried by `env`. -/
def initialize_storage_manager (settings : Dict) (env : GDriveEnv) : Except String FactoryResult :=
  let mode := (dictGet settings "storage_mode").getD (.str "local")
  let filename := (dictGet settings "history_filename").getD (.str "jarvis_chat_history.json")
  let clp := (dictGet settings "local_storage_path").getD .none
  match mode with
  | .str m =>
      if m = "google_drive" then
        let r := authenticate env false
        if r.ok then .ok ⟨.gdriveM r, true, true⟩
        else (mkLocalManager filename clp).map (fun s => ⟨.localM s, true, true⟩)
      else (mkLocalManager filename clp).map (fun s => ⟨.localM s, false, false⟩)
  | _ => (mkLocalManager filename clp).map (fun s => ⟨.localM s, false, false⟩)

/-! ## Concrete environments used as evaluation inputs -/

/-- A Drive with no folders and no files. -/
def emptyDrive : Drive := ⟨[], [], 0⟩

/-- A cloud world with no token and no client-secret file: every
`authenticate` call fails before obtaining a credential. -/
def envAuthFailing : GDriveEnv :=
  { tokenFile := .absent, refreshOk := false, refreshSaveOk := false,
    credsFileExists := false, flowResult := Option.none, tokenSaveOk := false,
    buildOk := false, folderListOk := false, folderCreateOk := false,
    fileListOk := false, fileCreateOk := false,
    folder_name := "Jarvis-Core History",
    filename := "jarvis_chat_history.json", drive := emptyDrive }

/-- A stored credential that is expired and carries a refresh token, a
refresh that fails, and an environment in which the interactive flow
would succeed (client-secret file present, flow returning a valid
credential, service build working). -/
def envRefreshFailure : GDriveEnv :=
  { tokenFile := .stored ⟨false, true, true⟩, refreshOk := false,
    refreshSaveOk := true, credsFileExists := true,
    flowResult := some ⟨true, false, true⟩, tokenSaveOk := true,
    buildOk := true, folderListOk := true, folderCreateOk := true,
    fileListOk := true, fileCreateOk := true,
    folder_name := "Jarvis-Core History",
    filename := "jarvis_chat_history.json", drive := emptyDrive }

/-- A fully working cloud world whose Drive already has the history
folder but no history file inside it. -/
def envDriveReady : GDriveEnv :=
  { tokenFile := .stored ⟨true, false, true⟩, refreshOk := true,
    refreshSaveOk := true, credsFileExists := true,
    flowResult := some ⟨true, false, true⟩, tokenSaveOk := true,
    buildOk := true, folderListOk := true, folderCreateOk := true,
    fileListOk := true, fileCreateOk := true,
    folder_name := "Jarvis-Core History",
    filename := "jarvis_chat_history.json",
    drive := ⟨[⟨"folderA", "Jarvis-Core History"⟩], [], 0⟩ }

/-! ## Helper lemmas -/

/-- `save_message` appends one entry to the raw history. -/
theorem load_raw_history_save (ts sender message : String) (f : FileState) :
    load_raw_history (save_message ts sender message f) =
      load_raw_history f ++ [mkEntry ts sender message] := rfl

/-- Saves accumulate: history after a run of saves is the history before,
followed by one entry per call, in call order. -/
theorem load_history_runSaves (calls : List (String × String × String)) (f : FileState) :
    load_history (runSaves calls f) =
      load_history f ++ calls.map (fun c => mkEntry c.1 c.2.1 c.2.2) := by
  induction calls generalizing f with
  | nil => simp [runSaves]
  | cons c cs ih =>
      simp only [runSaves, List.foldl_cons, List.map_cons]
      have : load_history (save_message c.1 c.2.1 c.2.2 f) =
          load_history f ++ [mkEntry c.1 c.2.1 c.2.2] := rfl
      rw [show List.foldl (fun acc c => save_message c.1 c.2.1 c.2.2 acc) (save_message c.1 c.2.1 c.2.2 f) cs = runSaves cs (save_message c.1 c.2.1 c.2.2 f) from rfl]
      rw [ih, this, List.append_assoc]
      rfl

/-! ## Claims about the Local Conversation Store -/

/-- C4: for every prior state of the backing file, one `save_message`
call grows the observable history by exactly one entry appended at the
end — the history observable before is an unchanged initial segment of
the history observable after, so no call truncates it. -/
theorem save_message_appends (f : FileState) (ts sender message : String) :
    load_history (save_message ts sender message f) =
      load_history f ++ [mkEntry ts sender message] := rfl

/-- C1: a sequence of `save_message` calls on a freshly constructed local
store (backing file absent) round-trips: `load_history` returns exactly
the corresponding entries in call order, sender and message verbatim, and
— given that every timestamp produced by `datetime.now().isoformat()` is
well-formed ISO-8601 — each entry carries a well-formed timestamp. -/
theorem local_store_roundtrip (calls : List (String × String × String))
    (h : ∀ c ∈ calls, isIso8601 c.1 = true) :
    load_history (runSaves calls FileState.absent) =
      calls.map (fun c => mkEntry c.1 c.2.1 c.2.2) ∧
    ∀ e ∈ load_history (runSaves calls FileState.absent),
      ∃ c ∈ calls, e = mkEntry c.1 c.2.1 c.2.2 ∧ isIso8601 c.1 = true := by
  have hmain : load_history (runSaves calls FileState.absent) =
      calls.map (fun c => mkEntry c.1 c.2.1 c.2.2) := by
    have := load_history_runSaves calls FileState.absent
    simpa [load_history, load_raw_history] using this
  refine ⟨hmain, ?_⟩
  intro e he
  rw [hmain] at he
  rcases List.mem_map.mp he with ⟨c, hc, rfl⟩
  exact ⟨c, hc, rfl, h c hc⟩

/-- C1 witness: two concrete saves on a fresh store. -/
theorem local_store_roundtrip_witness :
    load_history (runSaves [("2026-10-12T10:00:00.000001", "user", "hi"),
                            ("2026-10-12T10:00:01.000002", "assistant", "hello")]
                  FileState.absent) =
      [mkEntry "2026-10-12T10:00:00.000001" "user" "hi",
       mkEntry "2026-10-12T10:00:01.000002" "assistant" "hello"] :=
  (local_store_roundtrip _ (by decide)).1

/-- C2: `load_history` returns `[]`, raising nothing (it is a total
function), whenever the backing file is absent, unreadable, empty or
whitespace-only, not valid JSON, or valid JSON that is not an array. -/
theorem load_history_degrades_to_empty :
    load_history FileState.absent = [] ∧
    load_history FileState.ioError = [] ∧
    load_history FileState.blank = [] ∧
    load_history FileState.invalid = [] ∧
    ∀ v : PyVal, (∀ xs, v ≠ PyVal.list xs) → load_history (FileState.json v) = [] := by
  refine ⟨rfl, rfl, rfl, rfl, ?_⟩
  intro v hv
  cases v with
  | list xs => exact absurd rfl (hv xs)
  | str s => rfl
  | int n => rfl
  | bool b => rfl
  | none => rfl
  | dict kvs => rfl

/-- C2 witness: a backing file containing `{}` (valid JSON, not an
array) loads as the empty history. -/
theorem load_history_degrades_to_empty_witness :
    load_history (FileState.json (PyVal.dict [])) = [] :=
  load_history_degrades_to_empty.2.2.2.2 (PyVal.dict [])
    (fun _ h => PyVal.noConfusion h)

/-! ## Claims about `authenticate` and the cloud store -/

/-- C9: on every starting state — any token-file state, any client-secret
availability, failing or succeeding refresh and interactive flow —
`authenticate` returns `True` exactly when a usable credential was
obtained and the Drive service handle was built; every failure before
that point yields the boolean `False`.  `authenticate` is a total
function into `AuthResult`: no modelled exception escapes (every `raise`
of the external calls is a caught branch of the embedding). -/
theorem authenticate_false_on_failure (env : GDriveEnv) (force_reauth : Bool) :
    (authenticate env force_reauth).ok =
      ((authenticate env force_reauth).creds.isSome && env.buildOk) ∧
    (authenticate env force_reauth).service = (authenticate env force_reauth).ok := by
  have hfail : ∀ a b : Bool,
      (authFail env a b).ok = ((authFail env a b).creds.isSome && env.buildOk) ∧
      (authFail env a b).service = (authFail env a b).ok := by
    intro a b; simp [authFail]
  have hbuild : ∀ (c : Cred) (a b : Bool),
      (buildService env c a b).ok = ((buildService env c a b).creds.isSome && env.buildOk) ∧
      (buildService env c a b).service = (buildService env c a b).ok := by
    intro c a b; cases h : env.buildOk <;> simp [buildService, h]
  have hflow : ∀ fr : Bool,
      (run_oauth_flow env fr).ok = ((run_oauth_flow env fr).creds.isSome && env.buildOk) ∧
      (run_oauth_flow env fr).service = (run_oauth_flow env fr).ok := by
    intro fr
    unfold run_oauth_flow
    cases hce : env.credsFileExists with
    | false => simpa using hfail false false
    | true =>
        cases hfr : env.flowResult with
        | none => simpa using hfail true false
        | some c => simpa using hbuild c true _
  cases force_reauth with
  | true =>
      have := hflow true
      simpa [authenticate] using this
  | false =>
      cases htf : env.tokenFile with
      | absent => simpa [authenticate, htf] using hflow false
      | corrupt c => simpa [authenticate, htf] using hflow false
      | stored c =>
          by_cases hv : c.valid = true
          · simpa [authenticate, htf, hv] using hbuild c false false
          · by_cases he : (c.expired && c.refresh_token) = true
            · cases hro : env.refreshOk with
              | true =>
                  simpa [authenticate, htf, hv, he, hro] using
                    hbuild (refreshedCred c) false env.refreshSaveOk
              | false =>
                  simpa [authenticate, htf, hv, he, hro] using hfail false true
            · simpa [authenticate, htf, hv, he] using hflow false

/-- C5 evaluation: loading a persisted credential that is expired and has
a refresh token, with the network refresh failing, makes `authenticate`
return `False` with the interactive flow never launched — even though the
client-secret file exists and the flow would have produced a valid
credential.  The no-token transition (token file deleted, `creds = None`)
does happen, but re-authorization does not. -/
theorem authenticate_refresh_failure_skips_flow :
    (authenticate envRefreshFailure false).ok = false ∧
    (authenticate envRefreshFailure false).ranFlow = false ∧
    (authenticate envRefreshFailure false).tokenDeleted = true ∧
    (authenticate envRefreshFailure false).creds = Option.none ∧
    envRefreshFailure.credsFileExists = true ∧
    envRefreshFailure.flowResult = some ⟨true, false, true⟩ ∧
    (run_oauth_flow envRefreshFailure false).ok = true :=
  ⟨rfl, rfl, rfl, rfl, rfl, rfl, rfl⟩

/-- The upload body never re-authenticates: its attempt count is exactly
the count passed by its caller. -/
theorem gdrive_do_upload_attempts (st : GDState) (d : Drive) (a b : Bool)
    (n : Nat) (ts sender message : String) :
    (gdrive_do_upload st d a b n ts sender message).authAttempts = n := by
  unfold gdrive_do_upload
  cases h : st.file_id with
  | none => rfl
  | some fid => cases b <;> simp

/-- C6: with the service handle and object reference present, cloud
`save_message` and `load_history` perform no authentication; with either
missing, both perform exactly one authentication pass, and when that pass
fails — or the object reference is still missing afterwards — they give
up without retrying: the save records nothing and the load returns the
empty list. -/
theorem gdrive_single_auth_pass (st : GDState) (env : GDriveEnv)
    (dOk uOk : Bool) (ts sender message : String) :
    ((st.service && st.file_id.isSome) = true →
      (gdrive_save_message st env dOk uOk ts sender message).authAttempts = 0 ∧
      (gdrive_load_history st env dOk).authAttempts = 0) ∧
    ((st.service && st.file_id.isSome) = false →
      (gdrive_save_message st env dOk uOk ts sender message).authAttempts = 1 ∧
      (gdrive_load_history st env dOk).authAttempts = 1 ∧
      (((authenticate env false).ok = false ∨ (authenticate env false).file_id = Option.none) →
        (gdrive_save_message st env dOk uOk ts sender message).saved = false ∧
        (gdrive_load_history st env dOk).history = [])) := by
  constructor
  · intro h
    constructor
    · simp only [gdrive_save_message, h, if_true]
      exact gdrive_do_upload_attempts _ _ _ _ _ _ _ _
    · simp [gdrive_load_history, h]
  · intro h
    simp only [gdrive_save_message, gdrive_load_history, h, Bool.false_eq_true, if_false]
    cases hok : (authenticate env false).ok with
    | false =>
        refine ⟨by simp [hok], by simp [hok], ?_⟩
        intro _
        exact ⟨by simp [hok], by simp [hok]⟩
    | true =>
        cases hfid : (authenticate env false).file_id with
        | none =>
            refine ⟨by simp [hok, hfid], by simp [hok, hfid], ?_⟩
            intro _
            exact ⟨by simp [hok, hfid], by simp [hok, hfid]⟩
        | some fid =>
            refine ⟨?_, ?_, ?_⟩
            · simp only [hok, Bool.not_true, Bool.false_eq_true, if_false, hfid]
              exact gdrive_do_upload_attempts _ _ _ _ _ _ _ _
            · simp [hok, hfid]
            · intro hcontra
              rcases hcontra with hc | hc
              · exact Bool.noConfusion hc
              · exact Option.noConfusion hc

/-- C6 witness: a fresh manager state (no service, no file id) in a world
where authentication fails: one attempt, nothing saved, empty load. -/
theorem gdrive_single_auth_pass_witness :
    (gdrive_save_message ⟨false, Option.none⟩ envAuthFailing true true
        "2026-10-12T10:00:00.000001" "user" "hi").authAttempts = 1 ∧
    (gdrive_save_message ⟨false, Option.none⟩ envAuthFailing true true
        "2026-10-12T10:00:00.000001" "user" "hi").saved = false ∧
    (gdrive_load_history ⟨false, Option.none⟩ envAuthFailing true).history = [] := by
  have h := gdrive_single_auth_pass ⟨false, Option.none⟩ envAuthFailing true true
    "2026-10-12T10:00:00.000001" "user" "hi"
  have hm := h.2 rfl
  exact ⟨hm.1, (hm.2.2 (Or.inl rfl)).1, (hm.2.2 (Or.inl rfl)).2⟩

/-- C8: asked for a history file that does not yet exist in the resolved
folder, `_ensure_file_exists` creates it initialized with the JSON array
`[]` (the uploaded bytes `b"[]"`), so an immediately following download
parses to the empty list — not `None` and not an error.  `hfresh` states
that the backend-assigned id is fresh. -/
theorem ensure_creates_empty_array_file (env : GDriveEnv) (folderId : String) (d d1 : Drive)
    (hfold : find_or_create_folder env d = (some folderId, d1))
    (hlist : env.fileListOk = true)
    (hcreate : env.fileCreateOk = true)
    (habsent : d1.files.find? (fun f => f.fname = env.filename && f.parent = folderId) = Option.none)
    (hfresh : ∀ f ∈ d1.files, f.fid ≠ "id" ++ toString d1.nextId) :
    ensure_file_exists env d =
      (some ("id" ++ toString d1.nextId),
       { d1 with
           files := d1.files ++
             [⟨"id" ++ toString d1.nextId, env.filename, folderId, FileState.json (PyVal.list [])⟩],
           nextId := d1.nextId + 1 }) ∧
    download_history true (some ("id" ++ toString d1.nextId)) true
      { d1 with
          files := d1.files ++
            [⟨"id" ++ toString d1.nextId, env.filename, folderId, FileState.json (PyVal.list [])⟩],
          nextId := d1.nextId + 1 } = [] := by
  constructor
  · unfold ensure_file_exists
    rw [hfold]
    simp only [hlist, hcreate, Bool.not_true, Bool.false_eq_true, if_false, habsent]
  · unfold download_history
    have hnone : d1.files.find? (fun f => f.fid = ("id" ++ toString d1.nextId)) = Option.none := by
      apply List.find?_eq_none.mpr
      intro f hf
      simpa using hfresh f hf
    simp only [if_true]
    rw [List.find?_append, hnone]
    simp [List.find?]

/-- C8 witness: a Drive that has the history folder but no history file. -/
theorem ensure_creates_empty_array_file_witness :
    ensure_file_exists envDriveReady envDriveReady.drive =
      (some "id0",
       ⟨[⟨"folderA", "Jarvis-Core History"⟩],
        [⟨"id0", "jarvis_chat_history.json", "folderA", FileState.json (PyVal.list [])⟩], 1⟩) ∧
    download_history true (some "id0") true
      ⟨[⟨"folderA", "Jarvis-Core History"⟩],
       [⟨"id0", "jarvis_chat_history.json", "folderA", FileState.json (PyVal.list [])⟩], 1⟩ = [] := by
  have h := ensure_creates_empty_array_file envDriveReady "folderA"
    envDriveReady.drive envDriveReady.drive rfl rfl rfl rfl
    (fun f hf => absurd hf (List.not_mem_nil f))
  exact h

/-! ## Claims about the Storage Factory -/

/-- C3: a configuration whose storage mode requests the cloud store
(`"google_drive"`, the code's cloud value) on which `authenticate`
returns `False` makes the factory return — never `None`, never an
exception — a `LocalStorageManager` constructed with the configured
`local_storage_path` override. -/
theorem factory_falls_back_to_local (settings : Dict) (env : GDriveEnv) (f : String)
    (hmode : dictGet settings "storage_mode" = some (PyVal.str "google_drive"))
    (hfile : (dictGet settings "history_filename").getD (PyVal.str "jarvis_chat_history.json") = PyVal.str f)
    (hauth : (authenticate env false).ok = false) :
    initialize_storage_manager settings env =
      Except.ok ⟨Manager.localM (localStorageInit f
          ((dictGet settings "local_storage_path").getD PyVal.none)), true, true⟩ := by
  unfold initialize_storage_manager
  rw [hmode, hfile]
  simp [hauth, mkLocalManager, Except.map]

/-- C3 witness: cloud mode with no token and no client-secret file. -/
theorem factory_falls_back_to_local_witness :
    initialize_storage_manager [("storage_mode", PyVal.str "google_drive")] envAuthFailing =
      Except.ok ⟨Manager.localM (localStorageInit "jarvis_chat_history.json" PyVal.none),
                 true, true⟩ :=
  factory_falls_back_to_local [("storage_mode", PyVal.str "google_drive")]
    envAuthFailing "jarvis_chat_history.json" rfl rfl rfl

/-- C10: every storage-mode string other than `"google_drive"` — the
spec's own enum value `"cloud"` included — makes the factory construct a
`LocalStorageManager` directly: no cloud store is constructed and no
authentication is attempted. -/
theorem factory_other_modes_are_local (settings : Dict) (env : GDriveEnv) (m f : String)
    (hmode : (dictGet settings "storage_mode").getD (PyVal.str "local") = PyVal.str m)
    (hm : m ≠ "google_drive")
    (hfile : (dictGet settings "history_filename").getD (PyVal.str "jarvis_chat_history.json") = PyVal.str f) :
    initialize_storage_manager settings env =
      Except.ok ⟨Manager.localM (localStorageInit f
          ((dictGet settings "local_storage_path").getD PyVal.none)), false, false⟩ := by
  unfold initialize_storage_manager
  rw [hmode, hfile]
  simp [hm, mkLocalManager, Except.map]

/-- C10 witness: the spec's `"cloud"` mode value selects the local store
with no cloud construction and no authentication attempt. -/
theorem factory_other_modes_are_local_witness :
    initialize_storage_manager [("storage_mode", PyVal.str "cloud")] envAuthFailing =
      Except.ok ⟨Manager.localM (localStorageInit "jarvis_chat_history.json" PyVal.none),
                 false, false⟩ :=
  factory_other_modes_are_local [("storage_mode", PyVal.str "cloud")]
    envAuthFailing "cloud" "jarvis_chat_history.json" rfl (by decide) rfl

/-! ## Claims about the settings loader -/

/-- Lookup after a single Python dict assignment. -/
theorem dictGet_dictSet (d : Dict) (a k : String) (v : PyVal) :
    dictGet (dictSet d a v) k = if a = k then some v else dictGet d k := by
  induction d with
  | nil =>
      by_cases h : a = k <;> simp [dictGet, dictSet, List.find?, h]
  | cons kv rest ih =>
      by_cases h1 : kv.1 = a
      · by_cases h2 : a = k
        · simp [dictSet, dictGet, List.find?, h1, h2]
        · have hkk : ¬ kv.1 = k := fun hh => h2 (h1.symm.trans hh)
          simp [dictSet, dictGet, List.find?, h1, h2, hkk]
      · by_cases h2 : kv.1 = k
        · have hak : ¬ a = k := fun hh => h1 (h2.trans hh.symm)
          have hka : ¬ k = a := fun hh => hak hh.symm
          simp [dictSet, dictGet, List.find?, h1, h2, hak, hka]
        · simp only [dictSet, if_neg h1]
          simp only [dictGet, List.find?] at ih ⊢
          simp [h2, ih]

/-- Peeling one update off `lastGet`. -/
theorem lastGet_cons (p : String × PyVal) (ps : List (String × PyVal)) (k : String) :
    lastGet (p :: ps) k =
      match lastGet ps k with
      | some v => some v
      | Option.none => if p.1 = k then some p.2 else Option.none := by
  unfold lastGet
  rw [List.reverse_cons, List.find?_append]
  cases h : ps.reverse.find? (fun kv => kv.1 = k) with
  | some x => simp [h, Option.or]
  | none =>
      by_cases hp : p.1 = k <;> simp [h, Option.or, List.find?, hp]

/-- Lookup in a dict after `dict.update(kvs)`: the last binding in `kvs`
wins; keys not updated keep their previous value. -/
theorem dictGet_updateFromDict (kvs : List (String × PyVal)) (d : Dict) (k : String) :
    dictGet (updateFromDict d kvs) k =
      match lastGet kvs k with
      | some v => some v
      | Option.none => dictGet d k := by
  induction kvs generalizing d with
  | nil => simp [updateFromDict, lastGet, List.find?]
  | cons p ps ih =>
      have hstep : updateFromDict d (p :: ps) = updateFromDict (dictSet d p.1 p.2) ps := rfl
      rw [hstep, ih, lastGet_cons]
      cases h : lastGet ps k with
      | some v => rfl
      | none =>
          rw [dictGet_dictSet]
          by_cases hp : p.1 = k <;> simp [hp]

/-- C7 counterexample: the loader does not survive every configuration
file content.  A file whose JSON is not an object (here `5`) makes
`dict.update` raise an uncaught `TypeError`, and a JSON object whose
`google_drive_token_file` value is not a string makes the `.endswith`
normalization raise an uncaught `AttributeError` — in both cases the
loader raises instead of returning the defaults or a merge. -/
theorem load_settings_nonobject_file_raises :
    load_settings (SettingsFile.parsed (PyVal.int 5)) =
      Except.error "TypeError: object is not iterable" ∧
    load_settings (SettingsFile.parsed
        (PyVal.dict [("google_drive_token_file", PyVal.int 5)])) =
      Except.error "AttributeError: endswith called on a non-string value" :=
  ⟨rfl, rfl⟩

/-- C7 amended: for every configuration file that is absent, unreadable,
invalid JSON, or parses to a JSON object whose `google_drive_token_file`
value (when set) is a string, the loader merges the loaded values onto
the built-in defaults rather than replacing them: a file holding only the
storage-mode key leaves every other field at its documented default, keys
unknown to the defaults are preserved (last binding wins), keys not in
the file keep their default, and an unreadable or malformed file yields
exactly the defaults. -/
theorem load_settings_merge_amended (kvs : List (String × PyVal))
    (hTok : tokenFieldOk kvs = true) :
    load_settings SettingsFile.absent = Except.ok defaultSettings ∧
    load_settings SettingsFile.ioError = Except.ok defaultSettings ∧
    load_settings SettingsFile.invalidJson = Except.ok defaultSettings ∧
    (∀ m : String,
      load_settings (SettingsFile.parsed (PyVal.dict [("storage_mode", PyVal.str m)])) =
        Except.ok (dictSet defaultSettings "storage_mode" (PyVal.str m))) ∧
    load_settings (SettingsFile.parsed (PyVal.dict kvs)) =
      Except.ok (pureFixup (updateFromDict defaultSettings kvs)) ∧
    (∀ k, dictGet defaultSettings k = Option.none →
      dictGet (pureFixup (updateFromDict defaultSettings kvs)) k = lastGet kvs k) ∧
    (∀ k, lastGet kvs k = Option.none →
      dictGet (pureFixup (updateFromDict defaultSettings kvs)) k = dictGet defaultSettings k) := by
  have hdef : dictGet defaultSettings "google_drive_token_file" =
      some (PyVal.str "token.json") := rfl
  have hmerged : ∃ s : String,
      dictGet (updateFromDict defaultSettings kvs) "google_drive_token_file" =
        some (PyVal.str s) := by
    have h := dictGet_updateFromDict kvs defaultSettings "google_drive_token_file"
    rw [hdef] at h
    unfold tokenFieldOk at hTok
    cases hl : lastGet kvs "google_drive_token_file" with
    | none => rw [hl] at h; exact ⟨"token.json", h⟩
    | some v =>
        rw [hl] at h hTok
        cases v with
        | str s => exact ⟨s, h⟩
        | int n => exact Bool.noConfusion hTok
        | bool b => exact Bool.noConfusion hTok
        | none => exact Bool.noConfusion hTok
        | list xs => exact Bool.noConfusion hTok
        | dict kvs2 => exact Bool.noConfusion hTok
  obtain ⟨s0, hs0⟩ := hmerged
  have hfix : tokenFixup (updateFromDict defaultSettings kvs) =
      Except.ok (pureFixup (updateFromDict defaultSettings kvs)) := by
    unfold tokenFixup pureFixup
    rw [hs0]
    rfl
  have hpure : ∀ k, k ≠ "google_drive_token_file" →
      dictGet (pureFixup (updateFromDict defaultSettings kvs)) k =
        dictGet (updateFromDict defaultSettings kvs) k := by
    intro k hkt
    unfold pureFixup
    rw [hs0]
    cases hp : strEndsWith s0 ".pickle" with
    | true =>
        simp only [hp, Option.getD_some, if_true]
        rw [dictGet_dictSet, if_neg (Ne.symm hkt)]
    | false => simp [hp]
  refine ⟨rfl, rfl, rfl, fun m => rfl, ?_, ?_, ?_⟩
  · show (dictUpdate defaultSettings (PyVal.dict kvs)).bind tokenFixup = _
    simpa [dictUpdate, Except.bind] using hfix
  · intro k hk
    have hkt : k ≠ "google_drive_token_file" := by
      intro h; rw [h, hdef] at hk; exact Option.noConfusion hk
    rw [hpure k hkt, dictGet_updateFromDict, hk]
    cases hl : lastGet kvs k <;> simp
  · intro k hk
    by_cases hkt : k = "google_drive_token_file"
    · subst hkt
      have h := dictGet_updateFromDict kvs defaultSettings "google_drive_token_file"
      rw [hdef, hk] at h
      have hs0' : s0 = "token.json" := by
        rw [h] at hs0
        exact (PyVal.str.inj (Option.some.inj hs0)).symm
      subst hs0'
      unfold pureFixup
      rw [hs0]
      simp only [Option.getD_some]
      rw [show strEndsWith "token.json" ".pickle" = false from rfl]
      simp only [Bool.false_eq_true, if_false]
      rw [h, hdef]
    · rw [hpure k hkt, dictGet_updateFromDict, hk]

/-- C7 amended witness: a file holding a storage-mode override plus a key
unknown to the defaults loads to the merge, with the unknown key
preserved and a missing key (the credentials file) kept at its default. -/
theorem load_settings_merge_amended_witness :
    load_settings (SettingsFile.parsed (PyVal.dict
        [("storage_mode", PyVal.str "cloud"), ("unknown_key", PyVal.int 7)])) =
      Except.ok (pureFixup (updateFromDict defaultSettings
        [("storage_mode", PyVal.str "cloud"), ("unknown_key", PyVal.int 7)])) ∧
    dictGet (pureFixup (updateFromDict defaultSettings
        [("storage_mode", PyVal.str "cloud"), ("unknown_key", PyVal.int 7)])) "unknown_key" =
      some (PyVal.int 7) ∧
    dictGet (pureFixup (updateFromDict defaultSettings
        [("storage_mode", PyVal.str "cloud"), ("unknown_key", PyVal.int 7)]))
        "google_drive_credentials_file" =
      some (PyVal.str "credentials.json") := by
  have h := load_settings_merge_amended
    [("storage_mode", PyVal.str "cloud"), ("unknown_key", PyVal.int 7)] rfl
  refine ⟨h.2.2.2.2.1, ?_, ?_⟩
  · have h6 := h.2.2.2.2.2.1 "unknown_key" rfl
    rw [h6]; rfl
  · have h7 := h.2.2.2.2.2.2 "google_drive_credentials_file" rfl
    rw [h7]; rfl
